import Mathlib

/-!
Shallow embedding of `src/events.rs` from the neovide repository: the decoder
that turns dynamically-typed msgpack-rpc notification payloads into typed
`RedrawEvent` values.

Modelling conventions:
* `rmpv::Value` becomes the inductive `Value`.  The msgpack integer type
  (which stores either a `u64` or a negative `i64`) is modelled as `Int`;
  its `as_u64` / `as_i64` accessors return `none` exactly when the stored
  value is outside the target range.  A msgpack string stores raw bytes that
  may or may not be valid UTF-8; it is modelled as `Option String`
  (`some s` = valid UTF-8 with contents `s`, `none` = invalid bytes), so
  `Utf8String::as_str` / `into_str` are the identity on that option.
* Rust `Result<T, EventParseError>` becomes `Except EventParseError T`.
* Rust panics (the `unwrap()` calls in `parse_hl_attr_define`) are modelled
  by an outer `Option` layer: `none` means the call panics instead of
  returning.  Functions that cannot panic stay in plain `Except`.
* `f32` arithmetic in the color struct is modelled exactly over `ℚ`
  (all channel bytes and the division by 255 are the identical real-number
  computation; rounding plays no role in any stated property).
-/

/-- `rmpv::Value`: the dynamically typed msgpack value tree. -/
inductive Value where
  | nil : Value
  | boolean (b : Bool) : Value
  | integer (n : Int) : Value
  | f64 (x : ℚ) : Value
  | str (s : Option String) : Value
  | bin (bytes : List Nat) : Value
  | array (items : List Value) : Value
  | map (entries : List (Value × Value)) : Value
  | ext (ty : Int) (data : List Nat) : Value

/-- `rmpv::Integer::as_u64`: `some` exactly when the value fits in `u64`
(the literal is `2 ^ 64`; kept as a numeral so that it evaluates). -/
def as_u64 (n : Int) : Option Nat :=
  if 0 ≤ n ∧ n < 18446744073709551616 then some n.toNat else none

/-- `rmpv::Integer::as_i64`: `some` exactly when the value fits in `i64`
(the literals are `-(2 ^ 63)` and `2 ^ 63`). -/
def as_i64 (n : Int) : Option Int :=
  if -9223372036854775808 ≤ n ∧ n < 9223372036854775808 then some n else none

/-- The error taxonomy of `events.rs`; each kind-mismatch error carries the
offending node. -/
inductive EventParseError where
  | InvalidArray (v : Value)
  | InvalidMap (v : Value)
  | InvalidString (v : Value)
  | InvalidU64 (v : Value)
  | InvalidI64 (v : Value)
  | InvalidEventFormat

/-- `skulpin::skia_safe::Color4f` (external struct), channels as exact
rationals. -/
structure Color4f where
  r : ℚ
  g : ℚ
  b : ℚ
  a : ℚ

/-- Modelled from the spec: `Colors` from `crate::editor` (not under `src/`),
"three optional channel values" foreground/background/special. -/
structure Colors where
  foreground : Option Color4f
  background : Option Color4f
  special : Option Color4f

/-- Modelled from the spec: the `Colors` constructor taking the three
optional channels. -/
def Colors.new (fg bg sp : Option Color4f) : Colors :=
  { foreground := fg, background := bg, special := sp }

/-- Modelled from the spec: `Style` from `crate::editor` (not under `src/`):
colors plus boolean text decorations and an 8-bit `blend`
(`blend : Nat` carrying a value `< 256`). -/
structure Style where
  colors : Colors
  reverse : Bool
  italic : Bool
  bold : Bool
  strikethrough : Bool
  underline : Bool
  undercurl : Bool
  blend : Nat

/-- Modelled from the spec: `Style::new` — "Style starts from an
all-absent-colors baseline", boolean attributes "default to false unless
present", blend zero. -/
def Style.new (colors : Colors) : Style :=
  { colors := colors, reverse := false, italic := false, bold := false,
    strikethrough := false, underline := false, undercurl := false,
    blend := 0 }

/-- Modelled from the spec: `CursorShape` from `crate::editor` (not under
`src/`), an enum-like value produced by a shape-name lookup. -/
inductive CursorShape where
  | Block
  | Horizontal
  | Vertical

/-- Modelled from the spec: `CursorShape::from_type_name`, the textual
shape-name lookup "with an implied default for unrecognized names" (the
default choice is owned by the collaborator; `Block` is used here). -/
def CursorShape.from_type_name (name : String) : CursorShape :=
  if name = "block" then CursorShape.Block
  else if name = "horizontal" then CursorShape.Horizontal
  else if name = "vertical" then CursorShape.Vertical
  else CursorShape.Block

/-- Modelled from the spec: `CursorMode` from `crate::editor` (not under
`src/`), "default-initialized then field-mutated" with the fields this
decoder populates: the shape and an optional style id. -/
structure CursorMode where
  shape : CursorShape
  style_id : Option Nat

/-- Modelled from the spec: `CursorMode::new`, the default-initialized
cursor mode. -/
def CursorMode.new : CursorMode :=
  { shape := CursorShape.Block, style_id := none }

/-- `GridLineCell` from `events.rs`. -/
structure GridLineCell where
  text : String
  highlight_id : Option Nat
  rep : Option Nat

/-- `RedrawEvent` from `events.rs` (field order as in the source). -/
inductive RedrawEvent where
  | SetTitle (title : String)
  | ModeInfoSet (cursor_modes : List CursorMode)
  | ModeChange (mode_index : Nat)
  | BusyStart
  | BusyStop
  | Flush
  | Resize (grid width height : Nat)
  | DefaultColorsSet (colors : Colors)
  | HighlightAttributesDefine (id : Nat) (style : Style)
  | GridLine (grid row column_start : Nat) (cells : List GridLineCell)
  | Clear (grid : Nat)
  | CursorGoto (grid row column : Nat)
  | Scroll (grid top bottom left right : Nat) (rows columns : Int)

/-- `unpack_color`: truncate to `u32`, split the low three bytes into
channels, normalize by 255, alpha fixed at 1. -/
def unpack_color (packed_color : Nat) : Color4f :=
  let packed_color := packed_color % 2 ^ 32
  let r := (packed_color &&& 0xff0000) >>> 16
  let g := (packed_color &&& 0xff00) >>> 8
  let b := packed_color &&& 0xff
  { r := (r : ℚ) / 255, g := (g : ℚ) / 255, b := (b : ℚ) / 255, a := 1 }

/-- `parse_array` accessor. -/
def parse_array (array_value : Value) : Except EventParseError (List Value) :=
  match array_value with
  | Value.array content => Except.ok content
  | _ => Except.error (EventParseError.InvalidArray array_value)

/-- `parse_map` accessor. -/
def parse_map (map_value : Value) :
    Except EventParseError (List (Value × Value)) :=
  match map_value with
  | Value.map content => Except.ok content
  | _ => Except.error (EventParseError.InvalidMap map_value)

/-- `parse_string` accessor: a non-string node, or a string node whose bytes
are not valid UTF-8, both fail with `InvalidString`. -/
def parse_string (string_value : Value) : Except EventParseError String :=
  match string_value with
  | Value.str content =>
    match content with
    | some s => Except.ok s
    | none => Except.error (EventParseError.InvalidString string_value)
  | _ => Except.error (EventParseError.InvalidString string_value)

/-- `parse_u64` accessor. -/
def parse_u64 (u64_value : Value) : Except EventParseError Nat :=
  match u64_value with
  | Value.integer content =>
    match as_u64 content with
    | some u => Except.ok u
    | none => Except.error (EventParseError.InvalidU64 u64_value)
  | _ => Except.error (EventParseError.InvalidU64 u64_value)

/-- `parse_i64` accessor. -/
def parse_i64 (i64_value : Value) : Except EventParseError Int :=
  match i64_value with
  | Value.integer content =>
    match as_i64 content with
    | some i => Except.ok i
    | none => Except.error (EventParseError.InvalidI64 i64_value)
  | _ => Except.error (EventParseError.InvalidI64 i64_value)

/-- `parse_set_title`. -/
def parse_set_title (set_title_arguments : List Value) :
    Except EventParseError RedrawEvent :=
  match set_title_arguments with
  | [title] => do
    let t ← parse_string title
    pure (RedrawEvent.SetTitle t)
  | _ => Except.error EventParseError.InvalidEventFormat

/-- The body of the per-map loop of `parse_mode_info_set`: fold one
`(name, value)` map entry into the accumulated `CursorMode`. -/
def foldCursorMode (mode_info : CursorMode) (entry : Value × Value) :
    Except EventParseError CursorMode := do
  let name ← parse_string entry.1
  if name = "cursor_shape" then do
    let s ← parse_string entry.2
    pure { mode_info with shape := CursorShape.from_type_name s }
  else if name = "attr_id" then do
    let i ← parse_u64 entry.2
    pure { mode_info with style_id := some i }
  else
    pure mode_info

/-- `parse_mode_info_set`. -/
def parse_mode_info_set (mode_info_set_arguments : List Value) :
    Except EventParseError RedrawEvent :=
  match mode_info_set_arguments with
  | [_cursor_style_enabled, mode_info] => do
    let mode_info_values ← parse_array mode_info
    let cursor_modes ← mode_info_values.mapM (fun mode_info_value => do
      let info_map ← parse_map mode_info_value
      info_map.foldlM foldCursorMode CursorMode.new)
    pure (RedrawEvent.ModeInfoSet cursor_modes)
  | _ => Except.error EventParseError.InvalidEventFormat

/-- `parse_mode_change`. -/
def parse_mode_change (mode_change_arguments : List Value) :
    Except EventParseError RedrawEvent :=
  match mode_change_arguments with
  | [_mode, mode_index] => do
    let i ← parse_u64 mode_index
    pure (RedrawEvent.ModeChange i)
  | _ => Except.error EventParseError.InvalidEventFormat

/-- `parse_grid_resize`. -/
def parse_grid_resize (grid_resize_arguments : List Value) :
    Except EventParseError RedrawEvent :=
  match grid_resize_arguments with
  | [grid_id, width, height] => do
    let g ← parse_u64 grid_id
    let w ← parse_u64 width
    let h ← parse_u64 height
    pure (RedrawEvent.Resize g w h)
  | _ => Except.error EventParseError.InvalidEventFormat

/-- `parse_default_colors`. -/
def parse_default_colors (default_colors_arguments : List Value) :
    Except EventParseError RedrawEvent :=
  match default_colors_arguments with
  | [foreground, background, special, _term_foreground, _term_background] => do
    let fg ← parse_u64 foreground
    let bg ← parse_u64 background
    let sp ← parse_u64 special
    pure (RedrawEvent.DefaultColorsSet
      (Colors.new (some (unpack_color fg)) (some (unpack_color bg))
        (some (unpack_color sp))))
  | _ => Except.error EventParseError.InvalidEventFormat

/-- One arm of the attribute match inside `parse_hl_attr_define`, after the
key has been unwrapped to a UTF-8 string.  The source calls
`Integer::as_u64().unwrap()` on color and blend values; `none` here models
that panic.  Unmatched (key, value-kind) pairs fall to the catch-all arm
(logged and skipped in the source). -/
def applyStyleAttribute (style : Style) (name : String) (value : Value) :
    Option Style :=
  if name = "foreground" then
    match value with
    | Value.integer packed_color =>
      (as_u64 packed_color).map fun u =>
        { style with colors := { style.colors with
            foreground := some (unpack_color u) } }
    | _ => some style
  else if name = "background" then
    match value with
    | Value.integer packed_color =>
      (as_u64 packed_color).map fun u =>
        { style with colors := { style.colors with
            background := some (unpack_color u) } }
    | _ => some style
  else if name = "special" then
    match value with
    | Value.integer packed_color =>
      (as_u64 packed_color).map fun u =>
        { style with colors := { style.colors with
            special := some (unpack_color u) } }
    | _ => some style
  else if name = "reverse" then
    match value with
    | Value.boolean b => some { style with reverse := b }
    | _ => some style
  else if name = "italic" then
    match value with
    | Value.boolean b => some { style with italic := b }
    | _ => some style
  else if name = "bold" then
    match value with
    | Value.boolean b => some { style with bold := b }
    | _ => some style
  else if name = "strikethrough" then
    match value with
    | Value.boolean b => some { style with strikethrough := b }
    | _ => some style
  else if name = "underline" then
    match value with
    | Value.boolean b => some { style with underline := b }
    | _ => some style
  else if name = "undercurl" then
    match value with
    | Value.boolean b => some { style with undercurl := b }
    | _ => some style
  else if name = "blend" then
    match value with
    | Value.integer blend =>
      (as_u64 blend).map fun u => { style with blend := u % 256 }
    | _ => some style
  else
    some style

/-- One iteration of the attribute loop in `parse_hl_attr_define`: a
non-string key is logged and skipped; a string key whose bytes are not valid
UTF-8 panics (`Utf8String::as_str().unwrap()`), modelled as `none`. -/
def applyAttributeEntry (style : Style) (attr : Value × Value) :
    Option Style :=
  match attr with
  | (Value.str name, value) =>
    match name with
    | none => none
    | some n => applyStyleAttribute style n value
  | _ => some style

/-- `parse_hl_attr_define`.  The outer `Option` is the panic channel: `none`
when one of the source's `unwrap()` calls aborts. -/
def parse_hl_attr_define (hl_attr_define_arguments : List Value) :
    Option (Except EventParseError RedrawEvent) :=
  match hl_attr_define_arguments with
  | [id, attributes_value, _terminal_attributes, _info] =>
    match attributes_value with
    | Value.map attributes =>
      match attributes.foldlM applyAttributeEntry
          (Style.new (Colors.new none none none)) with
      | none => none
      | some style =>
        some (do
          let i ← parse_u64 id
          pure (RedrawEvent.HighlightAttributesDefine i style))
    | _ => some (Except.error EventParseError.InvalidEventFormat)
  | _ => some (Except.error EventParseError.InvalidEventFormat)

/-- `parse_grid_line_cell`: variable-arity cell array, "present if the index
exists". -/
def parse_grid_line_cell (grid_line_cell : Value) :
    Except EventParseError GridLineCell := do
  let cell_contents ← parse_array grid_line_cell
  let text_value ←
    match cell_contents.get? 0 with
    | some v => pure v
    | none => Except.error EventParseError.InvalidEventFormat
  let text ← parse_string text_value
  let highlight_id ←
    match cell_contents.get? 1 with
    | some v => do
      let u ← parse_u64 v
      pure (some u)
    | none => pure none
  let rep ←
    match cell_contents.get? 2 with
    | some v => do
      let u ← parse_u64 v
      pure (some u)
    | none => pure none
  pure { text := text, highlight_id := highlight_id, rep := rep }

/-- `parse_grid_line`. -/
def parse_grid_line (grid_line_arguments : List Value) :
    Except EventParseError RedrawEvent :=
  match grid_line_arguments with
  | [grid_id, row, column_start, cells] => do
    let g ← parse_u64 grid_id
    let r ← parse_u64 row
    let c ← parse_u64 column_start
    let cell_values ← parse_array cells
    let parsed_cells ← cell_values.mapM parse_grid_line_cell
    pure (RedrawEvent.GridLine g r c parsed_cells)
  | _ => Except.error EventParseError.InvalidEventFormat

/-- `parse_clear`. -/
def parse_clear (clear_arguments : List Value) :
    Except EventParseError RedrawEvent :=
  match clear_arguments with
  | [grid_id] => do
    let g ← parse_u64 grid_id
    pure (RedrawEvent.Clear g)
  | _ => Except.error EventParseError.InvalidEventFormat

/-- `parse_cursor_goto`: the wire order is `[grid, column, row]`; the
constructor field order is `(grid, row, column)` as in the source struct
expression. -/
def parse_cursor_goto (cursor_goto_arguments : List Value) :
    Except EventParseError RedrawEvent :=
  match cursor_goto_arguments with
  | [grid_id, column, row] => do
    let g ← parse_u64 grid_id
    let r ← parse_u64 row
    let c ← parse_u64 column
    pure (RedrawEvent.CursorGoto g r c)
  | _ => Except.error EventParseError.InvalidEventFormat

/-- `parse_grid_scroll`. -/
def parse_grid_scroll (grid_scroll_arguments : List Value) :
    Except EventParseError RedrawEvent :=
  match grid_scroll_arguments with
  | [grid_id, top, bottom, left, right, rows, columns] => do
    let g ← parse_u64 grid_id
    let t ← parse_u64 top
    let b ← parse_u64 bottom
    let l ← parse_u64 left
    let r ← parse_u64 right
    let ro ← parse_i64 rows
    let co ← parse_i64 columns
    pure (RedrawEvent.Scroll g t b l r ro co)
  | _ => Except.error EventParseError.InvalidEventFormat

/-- The name dispatch inside the loop of `parse_redraw_event`: for one
occurrence's argument list, `some (ok none)` is the skip outcome ("did not
parse" / intentionally ignored), the outer `Option` is the panic channel
(reachable only through `hl_attr_define`). -/
def dispatch_event (event_name : String) (event_parameters : List Value) :
    Option (Except EventParseError (Option RedrawEvent)) :=
  if event_name = "set_title" then
    some ((parse_set_title event_parameters).map some)
  else if event_name = "set_icon" then
    some (Except.ok none)
  else if event_name = "mode_info_set" then
    some ((parse_mode_info_set event_parameters).map some)
  else if event_name = "option_set" then
    some (Except.ok none)
  else if event_name = "mode_change" then
    some ((parse_mode_change event_parameters).map some)
  else if event_name = "busy_start" then
    some (Except.ok (some RedrawEvent.BusyStart))
  else if event_name = "busy_stop" then
    some (Except.ok (some RedrawEvent.BusyStop))
  else if event_name = "flush" then
    some (Except.ok (some RedrawEvent.Flush))
  else if event_name = "grid_resize" then
    some ((parse_grid_resize event_parameters).map some)
  else if event_name = "default_colors_set" then
    some ((parse_default_colors event_parameters).map some)
  else if event_name = "hl_attr_define" then
    (parse_hl_attr_define event_parameters).map (fun r => r.map some)
  else if event_name = "grid_line" then
    some ((parse_grid_line event_parameters).map some)
  else if event_name = "grid_clear" then
    some ((parse_clear event_parameters).map some)
  else if event_name = "grid_cursor_goto" then
    some ((parse_cursor_goto event_parameters).map some)
  else if event_name = "grid_scroll" then
    some ((parse_grid_scroll event_parameters).map some)
  else
    some (Except.ok none)

/-- The occurrence loop of `parse_redraw_event` over `events[1..]`: each
element first goes through `parse_array`, then the name dispatch; a `?`
failure aborts with all earlier pushes discarded, a panic aborts without
returning. -/
def parse_redraw_tail (event_name : String) :
    List Value → Option (Except EventParseError (List RedrawEvent))
  | [] => some (Except.ok [])
  | event :: rest =>
    match parse_array event with
    | Except.error e => some (Except.error e)
    | Except.ok event_parameters =>
      match dispatch_event event_name event_parameters with
      | none => none
      | some (Except.error e) => some (Except.error e)
      | some (Except.ok possible_parsed_event) =>
        match parse_redraw_tail event_name rest with
        | none => none
        | some (Except.error e) => some (Except.error e)
        | some (Except.ok parsed_events) =>
          some (Except.ok
            (match possible_parsed_event with
             | some parsed_event => parsed_event :: parsed_events
             | none => parsed_events))

/-- `parse_redraw_event`: one batch element `[name, occurrence…]`. -/
def parse_redraw_event (event_value : Value) :
    Option (Except EventParseError (List RedrawEvent)) :=
  match parse_array event_value with
  | Except.error e => some (Except.error e)
  | Except.ok event_contents =>
    match event_contents with
    | [] => some (Except.error EventParseError.InvalidEventFormat)
    | name_value :: rest =>
      match parse_string name_value with
      | Except.error e => some (Except.error e)
      | Except.ok event_name => parse_redraw_tail event_name rest

/-- The payload loop of `parse_neovim_event` for the `"redraw"` case. -/
def parse_neovim_tail :
    List Value → Option (Except EventParseError (List RedrawEvent))
  | [] => some (Except.ok [])
  | event :: rest =>
    match parse_redraw_event event with
    | none => none
    | some (Except.error e) => some (Except.error e)
    | some (Except.ok evs) =>
      match parse_neovim_tail rest with
      | none => none
      | some (Except.error e) => some (Except.error e)
      | some (Except.ok evs2) => some (Except.ok (evs ++ evs2))

/-- `parse_neovim_event`: session dispatch of one notification. -/
def parse_neovim_event (event_name : String) (events : List Value) :
    Option (Except EventParseError (List RedrawEvent)) :=
  if event_name = "redraw" then parse_neovim_tail events
  else some (Except.ok [])

/-- Kind tester: is this node an array? -/
def Value.isArray : Value → Bool
  | Value.array _ => true
  | _ => false

/-- Kind tester: is this node a map? -/
def Value.isMap : Value → Bool
  | Value.map _ => true
  | _ => false

/-- Kind tester: is this node a string? -/
def Value.isStr : Value → Bool
  | Value.str _ => true
  | _ => false

/-- Kind tester: is this node an integer? -/
def Value.isInteger : Value → Bool
  | Value.integer _ => true
  | _ => false

/-- The batch-element names for which `dispatch_event` invokes a per-event
decoder or emits an event, i.e. everything except the two intentional
no-ops (`set_icon`, `option_set`) and the unrecognized catch-all. -/
def producing_event_names : List String :=
  ["set_title", "mode_info_set", "mode_change", "busy_start", "busy_stop",
   "flush", "grid_resize", "default_colors_set", "hl_attr_define",
   "grid_line", "grid_clear", "grid_cursor_goto", "grid_scroll"]

/-- The attribute keys recognized by `parse_hl_attr_define`. -/
def recognized_style_keys : List String :=
  ["foreground", "background", "special", "reverse", "italic", "bold",
   "strikethrough", "underline", "undercurl", "blend"]

/-- The baseline style built at the top of `parse_hl_attr_define`. -/
def default_style : Style := Style.new (Colors.new none none none)

/-- Build a well-formed `hl_attr_define` occurrence argument list around a
given attribute map. -/
def hl_args (id : Nat) (entries : List (Value × Value)) : List Value :=
  [Value.integer id, Value.map entries, Value.array [], Value.array []]

/-- The two orders in which a two-entry attribute map can list a recognized
entry `r` and an unrecognized entry `u`. -/
def pair_orders (r u : Value × Value) (flip : Bool) : List (Value × Value) :=
  if flip then [u, r] else [r, u]

/-- Statement shape for the C9 conjuncts: decoding an `hl_attr_define`
occurrence whose map holds the recognized entry `(key, v)` and the
unrecognized entry `u` (in either order) yields exactly the style `st`. -/
def checks_hl (id : Nat) (flip : Bool) (u : Value × Value)
    (key : String) (v : Value) (st : Style) : Prop :=
  parse_hl_attr_define
      (hl_args id (pair_orders (Value.str (some key), v) u flip)) =
    some (Except.ok (RedrawEvent.HighlightAttributesDefine id st))

/-! ## Helper lemmas -/

theorem as_u64_natCast (n : Nat) (h : n < 2 ^ 64) : as_u64 (n : Int) = some n := by
  have hc : 0 ≤ (n : Int) ∧ (n : Int) < 18446744073709551616 :=
    ⟨Int.natCast_nonneg n, by omega⟩
  rw [as_u64, if_pos hc, Int.toNat_natCast]

theorem parse_u64_natCast (n : Nat) (h : n < 2 ^ 64) :
    parse_u64 (Value.integer (n : Int)) = Except.ok n := by
  rw [parse_u64, as_u64_natCast n h]

theorem exceptBindOk {α β ε : Type} (a : α) (f : α → Except ε β) :
    (Except.ok a : Except ε α) >>= f = f a := rfl

theorem exceptBindError {α β ε : Type} (e : ε) (f : α → Except ε β) :
    (Except.error e : Except ε α) >>= f = Except.error e := rfl

theorem exceptPureEq {α ε : Type} (a : α) :
    (pure a : Except ε α) = Except.ok a := rfl

theorem exceptMapOk {α β ε : Type} (f : α → β) (a : α) :
    Except.map f (Except.ok a : Except ε α) = Except.ok (f a) := rfl

theorem mask16_eq (x : Nat) : (x &&& 0xff0000) >>> 16 = x / 2 ^ 16 % 2 ^ 8 := by
  rw [← Nat.shiftRight_eq_div_pow, ← Nat.and_pow_two_sub_one_eq_mod]
  apply Nat.eq_of_testBit_eq
  intro i
  simp only [Nat.testBit_shiftRight, Nat.testBit_and]
  rw [show (0xff0000 : Nat) = (2 ^ 8 - 1) <<< 16 from rfl]
  simp only [Nat.testBit_shiftLeft, Nat.testBit_two_pow_sub_one]
  have hle : 16 ≤ 16 + i := Nat.le_add_right 16 i
  have hsub : 16 + i - 16 = i := by omega
  simp [hle, hsub]

theorem mask8_eq (x : Nat) : (x &&& 0xff00) >>> 8 = x / 2 ^ 8 % 2 ^ 8 := by
  rw [← Nat.shiftRight_eq_div_pow, ← Nat.and_pow_two_sub_one_eq_mod]
  apply Nat.eq_of_testBit_eq
  intro i
  simp only [Nat.testBit_shiftRight, Nat.testBit_and]
  rw [show (0xff00 : Nat) = (2 ^ 8 - 1) <<< 8 from rfl]
  simp only [Nat.testBit_shiftLeft, Nat.testBit_two_pow_sub_one]
  have hle : 8 ≤ 8 + i := Nat.le_add_right 8 i
  have hsub : 8 + i - 8 = i := by omega
  simp [hle, hsub]

theorem mask0_eq (x : Nat) : x &&& 0xff = x % 2 ^ 8 := by
  rw [show (0xff : Nat) = 2 ^ 8 - 1 from rfl, Nat.and_pow_two_sub_one_eq_mod]

theorem parse_array_of_array (items : List Value) :
    parse_array (Value.array items) = Except.ok items := rfl

theorem parse_string_of_str (s : String) :
    parse_string (Value.str (some s)) = Except.ok s := rfl

/-! ## Claim theorems -/

/-- C6: `unpack_color` is total, and for every input the channels are
`((n >>> 16) &&& 0xff) / 255`, `((n >>> 8) &&& 0xff) / 255`,
`(n &&& 0xff) / 255` with alpha `1`; bits above bit 23 never affect the
result (in particular this covers every `n ≤ 0xFFFFFF` as the claim
states). -/
theorem c6_unpack_color_channels (n : Nat) :
    unpack_color n =
      { r := (((n >>> 16) &&& 0xff : Nat) : ℚ) / 255,
        g := (((n >>> 8) &&& 0xff : Nat) : ℚ) / 255,
        b := ((n &&& 0xff : Nat) : ℚ) / 255, a := 1 } ∧
    unpack_color n = unpack_color (n % 2 ^ 24) := by
  have h1 : (n % 2 ^ 32 &&& 0xff0000) >>> 16 = (n >>> 16) &&& 0xff := by
    rw [mask16_eq, mask0_eq, Nat.shiftRight_eq_div_pow]
    omega
  have h2 : (n % 2 ^ 32 &&& 0xff00) >>> 8 = (n >>> 8) &&& 0xff := by
    rw [mask8_eq, mask0_eq, Nat.shiftRight_eq_div_pow]
    omega
  have h3 : n % 2 ^ 32 &&& 0xff = n &&& 0xff := by
    rw [mask0_eq, mask0_eq]
    omega
  have g1 : (n % 2 ^ 24 % 2 ^ 32 &&& 0xff0000) >>> 16 =
      (n % 2 ^ 32 &&& 0xff0000) >>> 16 := by
    rw [mask16_eq, mask16_eq]
    omega
  have g2 : (n % 2 ^ 24 % 2 ^ 32 &&& 0xff00) >>> 8 =
      (n % 2 ^ 32 &&& 0xff00) >>> 8 := by
    rw [mask8_eq, mask8_eq]
    omega
  have g3 : n % 2 ^ 24 % 2 ^ 32 &&& 0xff = n % 2 ^ 32 &&& 0xff := by
    rw [mask0_eq, mask0_eq]
    omega
  constructor
  · simp only [unpack_color]
    rw [h1, h2, h3]
  · simp only [unpack_color]
    rw [g1, g2, g3]

/-- C4: a `grid_cursor_goto` occurrence `[g, a, b]` of unsigned integers
decodes to `CursorGoto` with `grid = g`, `column = a`, `row = b` (the
constructor argument order below is `grid`, `row`, `column`). -/
theorem c4_cursor_goto_fields (g a b : Nat)
    (hg : g < 2 ^ 64) (ha : a < 2 ^ 64) (hb : b < 2 ^ 64) :
    parse_cursor_goto
        [Value.integer (g : Int), Value.integer (a : Int),
         Value.integer (b : Int)] =
      Except.ok (RedrawEvent.CursorGoto g b a) := by
  rw [parse_cursor_goto]
  simp only [parse_u64_natCast g hg, parse_u64_natCast a ha,
    parse_u64_natCast b hb, exceptBindOk, exceptPureEq]

/-- Evaluates `c4_cursor_goto_fields` at the concrete occurrence
`[1, 2, 3]`. -/
theorem c4_cursor_goto_fields_witness :
    parse_cursor_goto
        [Value.integer 1, Value.integer 2, Value.integer 3] =
      Except.ok (RedrawEvent.CursorGoto 1 3 2) :=
  c4_cursor_goto_fields 1 2 3 (by norm_num) (by norm_num) (by norm_num)

theorem pglc_two_aux (s : String) (v : Value) (u : Nat)
    (h : parse_u64 v = Except.ok u) :
    parse_grid_line_cell (Value.array [Value.str (some s), v]) =
      Except.ok { text := s, highlight_id := some u, rep := none } := by
  rw [parse_grid_line_cell]
  simp only [parse_array_of_array, parse_string_of_str, List.get?, h,
    exceptBindOk, exceptPureEq]

theorem pglc_three_aux (s : String) (v w : Value) (u x : Nat)
    (hv : parse_u64 v = Except.ok u) (hw : parse_u64 w = Except.ok x) :
    parse_grid_line_cell (Value.array [Value.str (some s), v, w]) =
      Except.ok { text := s, highlight_id := some u, rep := some x } := by
  rw [parse_grid_line_cell]
  simp only [parse_array_of_array, parse_string_of_str, List.get?, hv, hw,
    exceptBindOk, exceptPureEq]

/-- C5: a one-element cell array yields no highlight and no repeat, a
two-element cell array yields no repeat, a three-element cell array yields
all three fields, and an empty cell array fails with the format error. -/
theorem c5_grid_line_cell_arities (s : String) (hl n : Nat)
    (hhl : hl < 2 ^ 64) (hn : n < 2 ^ 64) :
    parse_grid_line_cell (Value.array [Value.str (some s)]) =
      Except.ok { text := s, highlight_id := none, rep := none } ∧
    parse_grid_line_cell
        (Value.array [Value.str (some s), Value.integer (hl : Int)]) =
      Except.ok { text := s, highlight_id := some hl, rep := none } ∧
    parse_grid_line_cell
        (Value.array [Value.str (some s), Value.integer (hl : Int),
          Value.integer (n : Int)]) =
      Except.ok { text := s, highlight_id := some hl, rep := some n } ∧
    parse_grid_line_cell (Value.array []) =
      Except.error EventParseError.InvalidEventFormat :=
  ⟨rfl,
   pglc_two_aux s _ hl (parse_u64_natCast hl hhl),
   pglc_three_aux s _ _ hl n (parse_u64_natCast hl hhl)
     (parse_u64_natCast n hn),
   rfl⟩

/-- Evaluates `c5_grid_line_cell_arities` at the concrete cell
`["a", 5, 3]` from the spec. -/
theorem c5_grid_line_cell_arities_witness :
    parse_grid_line_cell
        (Value.array [Value.str (some "a"), Value.integer 5,
          Value.integer 3]) =
      Except.ok { text := "a", highlight_id := some 5, rep := some 3 } :=
  (c5_grid_line_cell_arities "a" 5 3 (by norm_num) (by norm_num)).2.2.1

/-- C7: every fixed-arity decoder rejects an argument list whose length
differs from its arity with `InvalidEventFormat` (for `parse_hl_attr_define`
the error sits inside the panic-free `some` layer). -/
theorem c7_wrong_arity_fails (args : List Value) :
    (args.length ≠ 1 →
      parse_set_title args = Except.error EventParseError.InvalidEventFormat) ∧
    (args.length ≠ 2 →
      parse_mode_info_set args =
        Except.error EventParseError.InvalidEventFormat) ∧
    (args.length ≠ 2 →
      parse_mode_change args =
        Except.error EventParseError.InvalidEventFormat) ∧
    (args.length ≠ 3 →
      parse_grid_resize args =
        Except.error EventParseError.InvalidEventFormat) ∧
    (args.length ≠ 5 →
      parse_default_colors args =
        Except.error EventParseError.InvalidEventFormat) ∧
    (args.length ≠ 4 →
      parse_hl_attr_define args =
        some (Except.error EventParseError.InvalidEventFormat)) ∧
    (args.length ≠ 4 →
      parse_grid_line args =
        Except.error EventParseError.InvalidEventFormat) ∧
    (args.length ≠ 1 →
      parse_clear args = Except.error EventParseError.InvalidEventFormat) ∧
    (args.length ≠ 3 →
      parse_cursor_goto args =
        Except.error EventParseError.InvalidEventFormat) ∧
    (args.length ≠ 7 →
      parse_grid_scroll args =
        Except.error EventParseError.InvalidEventFormat) := by
  refine ⟨?_, ?_, ?_, ?_, ?_, ?_, ?_, ?_, ?_, ?_⟩ <;> intro h
  · match args, h with
    | [], _ => rfl
    | [a], h => exact absurd rfl h
    | a :: b :: t, _ => rfl
  · match args, h with
    | [], _ => rfl
    | [a], _ => rfl
    | [a, b], h => exact absurd rfl h
    | a :: b :: c :: t, _ => rfl
  · match args, h with
    | [], _ => rfl
    | [a], _ => rfl
    | [a, b], h => exact absurd rfl h
    | a :: b :: c :: t, _ => rfl
  · match args, h with
    | [], _ => rfl
    | [a], _ => rfl
    | [a, b], _ => rfl
    | [a, b, c], h => exact absurd rfl h
    | a :: b :: c :: d :: t, _ => rfl
  · match args, h with
    | [], _ => rfl
    | [a], _ => rfl
    | [a, b], _ => rfl
    | [a, b, c], _ => rfl
    | [a, b, c, d], _ => rfl
    | [a, b, c, d, e], h => exact absurd rfl h
    | a :: b :: c :: d :: e :: f :: t, _ => rfl
  · match args, h with
    | [], _ => rfl
    | [a], _ => rfl
    | [a, b], _ => rfl
    | [a, b, c], _ => rfl
    | [a, b, c, d], h => exact absurd rfl h
    | a :: b :: c :: d :: e :: t, _ => rfl
  · match args, h with
    | [], _ => rfl
    | [a], _ => rfl
    | [a, b], _ => rfl
    | [a, b, c], _ => rfl
    | [a, b, c, d], h => exact absurd rfl h
    | a :: b :: c :: d :: e :: t, _ => rfl
  · match args, h with
    | [], _ => rfl
    | [a], h => exact absurd rfl h
    | a :: b :: t, _ => rfl
  · match args, h with
    | [], _ => rfl
    | [a], _ => rfl
    | [a, b], _ => rfl
    | [a, b, c], h => exact absurd rfl h
    | a :: b :: c :: d :: t, _ => rfl
  · match args, h with
    | [], _ => rfl
    | [a], _ => rfl
    | [a, b], _ => rfl
    | [a, b, c], _ => rfl
    | [a, b, c, d], _ => rfl
    | [a, b, c, d, e], _ => rfl
    | [a, b, c, d, e, f], _ => rfl
    | [a, b, c, d, e, f, g], h => exact absurd rfl h
    | a :: b :: c :: d :: e :: f :: g :: x :: t, _ => rfl

/-- Evaluates `c7_wrong_arity_fails` at the empty argument list for
`grid_resize` (the spec's example is `grid_resize` with 2 arguments, also
covered since `2 ≠ 3`). -/
theorem c7_wrong_arity_fails_witness :
    parse_grid_resize [] = Except.error EventParseError.InvalidEventFormat :=
  (c7_wrong_arity_fails []).2.2.2.1 (by decide)

/-- C8: every accessor rejects a node of the wrong kind with its
kind-specific error carrying the offending node itself; in particular a
float node is never accepted where an integer is required. -/
theorem c8_kind_mismatch_errors (v : Value) :
    (v.isInteger = false →
      parse_u64 v = Except.error (EventParseError.InvalidU64 v) ∧
      parse_i64 v = Except.error (EventParseError.InvalidI64 v)) ∧
    (v.isArray = false →
      parse_array v = Except.error (EventParseError.InvalidArray v)) ∧
    (v.isMap = false →
      parse_map v = Except.error (EventParseError.InvalidMap v)) ∧
    (v.isStr = false →
      parse_string v = Except.error (EventParseError.InvalidString v)) := by
  cases v <;>
    simp [Value.isInteger, Value.isArray, Value.isMap, Value.isStr,
      parse_u64, parse_i64, parse_array, parse_map, parse_string]

/-- Evaluates `c8_kind_mismatch_errors` at a float node: `parse_u64` returns
`InvalidU64` carrying that very node. -/
theorem c8_kind_mismatch_errors_witness :
    parse_u64 (Value.f64 (1 / 2)) =
      Except.error (EventParseError.InvalidU64 (Value.f64 (1 / 2))) :=
  ((c8_kind_mismatch_errors (Value.f64 (1 / 2))).1 rfl).1

/-- C2 (code evaluation): `parse_hl_attr_define` does not return at all on a
recognized color key whose integer has no `u64` representation, nor on an
attribute key whose bytes are not valid UTF-8 — both `unwrap()` calls panic
(modelled as `none`), instead of surfacing an error value. -/
theorem c2_hl_attr_define_panics :
    parse_hl_attr_define
        [Value.integer 1,
         Value.map [(Value.str (some "foreground"), Value.integer (-1))],
         Value.array [], Value.array []] = none ∧
    parse_hl_attr_define
        [Value.integer 1,
         Value.map [(Value.str none, Value.nil)],
         Value.array [], Value.array []] = none := ⟨rfl, rfl⟩

/-- C3 counterexample: a batch element with an unrecognized name and a
non-array remaining element fails (`parse_array` runs on every occurrence
before the name is consulted), contradicting "does not fail ... for every
shape of the remaining elements". -/
theorem c3_unrecognized_counterexample :
    parse_redraw_event
        (Value.array [Value.str (some "unknown_event"), Value.integer 42]) =
      some (Except.error (EventParseError.InvalidArray (Value.integer 42))) :=
  rfl

theorem dispatch_event_skip (name : String) (params : List Value)
    (h : name ∉ producing_event_names) :
    dispatch_event name params = some (Except.ok none) := by
  simp only [producing_event_names, List.mem_cons, List.mem_singleton,
    not_or] at h
  obtain ⟨h1, h2, h3, h4, h5, h6, h7, h8, h9, h10, h11, h12, h13, -⟩ := h
  unfold dispatch_event
  rw [if_neg h1]
  by_cases hsi : name = "set_icon"
  · rw [if_pos hsi]
  · rw [if_neg hsi, if_neg h2]
    by_cases hos : name = "option_set"
    · rw [if_pos hos]
    · rw [if_neg hos, if_neg h3, if_neg h4, if_neg h5, if_neg h6, if_neg h7,
        if_neg h8, if_neg h9, if_neg h10, if_neg h11, if_neg h12, if_neg h13]

theorem parse_redraw_tail_skip (name : String)
    (hname : name ∉ producing_event_names) :
    ∀ rest : List Value, rest.all Value.isArray = true →
      parse_redraw_tail name rest = some (Except.ok []) := by
  intro rest
  induction rest with
  | nil => intro _; rfl
  | cons v t ih =>
    intro hall
    rw [List.all_cons, Bool.and_eq_true] at hall
    obtain ⟨hv, ht⟩ := hall
    cases v
    case array items =>
      simp only [parse_redraw_tail, parse_array_of_array,
        dispatch_event_skip name items hname, ih ht]
    all_goals simp [Value.isArray] at hv

/-- C3 (amended): a batch element whose name is unrecognized — or is one of
the two intentional no-ops `set_icon` / `option_set` — yields zero events
without failing, provided each remaining element is an array (of any
contents); without that proviso the claim is refuted by
`c3_unrecognized_counterexample`. -/
theorem c3_amended_unrecognized_skips (name : String) (rest : List Value)
    (hname : name ∉ producing_event_names)
    (hrest : rest.all Value.isArray = true) :
    parse_redraw_event (Value.array (Value.str (some name) :: rest)) =
      some (Except.ok []) := by
  simp only [parse_redraw_event, parse_array_of_array, parse_string_of_str]
  exact parse_redraw_tail_skip name hname rest hrest

/-- Evaluates `c3_amended_unrecognized_skips` on an unrecognized name and on
the intentional no-op `set_icon`, each with one array occurrence. -/
theorem c3_amended_unrecognized_skips_witness :
    parse_redraw_event
        (Value.array [Value.str (some "frobnicate"),
          Value.array [Value.integer 7]]) = some (Except.ok []) ∧
    parse_redraw_event
        (Value.array [Value.str (some "set_icon"),
          Value.array [Value.integer 7]]) = some (Except.ok []) :=
  ⟨c3_amended_unrecognized_skips "frobnicate" [Value.array [Value.integer 7]]
      (by decide) rfl,
   c3_amended_unrecognized_skips "set_icon" [Value.array [Value.integer 7]]
      (by decide) rfl⟩

/-- C1: for a `"redraw"` notification, if every payload element before some
element decodes successfully and that element's batch decode fails with
error `err`, the whole session decode returns exactly `Except.error err` —
a single terminal error carrying no events, discarding the events of the
earlier payload elements. -/
theorem c1_error_aborts_notification (pre : List Value) (bad : Value)
    (post : List Value) (err : EventParseError)
    (hpre : ∀ v ∈ pre, ∃ evs, parse_redraw_event v = some (Except.ok evs))
    (hbad : parse_redraw_event bad = some (Except.error err)) :
    parse_neovim_event "redraw" (pre ++ bad :: post) =
      some (Except.error err) := by
  rw [parse_neovim_event, if_pos rfl]
  revert hpre
  induction pre with
  | nil =>
    intro _
    simp only [List.nil_append, parse_neovim_tail, hbad]
  | cons v t ih =>
    intro hpre
    obtain ⟨evs, hv⟩ := hpre v (List.mem_cons_self v t)
    have ih2 := ih (fun u hu => hpre u (List.mem_cons_of_mem v hu))
    simp only [List.cons_append, List.append_eq, parse_neovim_tail, hv, ih2]

/-- Evaluates `c1_error_aborts_notification` on a payload whose first
element decodes to `[BusyStart]` and whose second element is not even an
array: the call returns only the error, and `[BusyStart]` is discarded. -/
theorem c1_error_aborts_notification_witness :
    parse_neovim_event "redraw"
        [Value.array [Value.str (some "busy_start"), Value.array []],
         Value.nil,
         Value.array [Value.str (some "flush"), Value.array []]] =
      some (Except.error (EventParseError.InvalidArray Value.nil)) :=
  c1_error_aborts_notification
    [Value.array [Value.str (some "busy_start"), Value.array []]]
    Value.nil
    [Value.array [Value.str (some "flush"), Value.array []]]
    (EventParseError.InvalidArray Value.nil)
    (by
      intro v hv
      rw [List.mem_singleton] at hv
      subst hv
      exact ⟨[RedrawEvent.BusyStart], rfl⟩)
    rfl

/-- C10 counterexample: the payload of batch elements `["busy_start"]` then
`["flush"]` (names with zero occurrences, as the claim literally writes
them) decodes to the empty sequence, not to `[BusyStart, Flush]` — the
occurrence loop runs over `events[1..]`, which is empty here. -/
theorem c10_counterexample_zero_occurrences :
    parse_neovim_event "redraw"
        [Value.array [Value.str (some "busy_start")],
         Value.array [Value.str (some "flush")]] =
      some (Except.ok []) ∧
    parse_neovim_event "redraw"
        [Value.array [Value.str (some "busy_start")],
         Value.array [Value.str (some "flush")]] ≠
      some (Except.ok [RedrawEvent.BusyStart, RedrawEvent.Flush]) := by
  refine ⟨rfl, ?_⟩
  intro h
  rw [show parse_neovim_event "redraw"
        [Value.array [Value.str (some "busy_start")],
         Value.array [Value.str (some "flush")]] =
      some (Except.ok []) from rfl] at h
  simp at h

/-- C10 (amended): session dispatch concatenates the per-payload-element
event lists in order; a non-`"redraw"` name yields the empty sequence with
no error; and the two-element payload with one empty occurrence array per
batch element — `["busy_start", []]` then `["flush", []]` — decodes to
exactly `[BusyStart, Flush]` (with zero occurrence arrays, as literally
written in the claim, it decodes to `[]`, see the counterexample). -/
theorem c10_amended_order_preserved :
    (∀ events results,
        List.Forall₂
          (fun v r => parse_redraw_event v = some (Except.ok r))
          events results →
        parse_neovim_event "redraw" events =
          some (Except.ok results.flatten)) ∧
    (∀ name events, name ≠ "redraw" →
        parse_neovim_event name events = some (Except.ok [])) ∧
    parse_neovim_event "redraw"
        [Value.array [Value.str (some "busy_start"), Value.array []],
         Value.array [Value.str (some "flush"), Value.array []]] =
      some (Except.ok [RedrawEvent.BusyStart, RedrawEvent.Flush]) := by
  refine ⟨?_, ?_, rfl⟩
  · intro events results h
    rw [parse_neovim_event, if_pos rfl]
    induction h with
    | nil => rfl
    | cons hv htail ih =>
      simp only [parse_neovim_tail, hv, ih, List.flatten_cons]
  · intro name events h
    rw [parse_neovim_event, if_neg h]

/-- Evaluates `c10_amended_order_preserved` at a concrete non-`"redraw"`
notification. -/
theorem c10_amended_order_preserved_witness :
    parse_neovim_event "nvim_buf_lines_event" [Value.nil] =
      some (Except.ok []) :=
  c10_amended_order_preserved.2.1 "nvim_buf_lines_event" [Value.nil]
    (by decide)

theorem optionBindSome {α β : Type} (a : α) (f : α → Option β) :
    (some a >>= f) = f a := rfl

theorem optionPureEq {α : Type} (a : α) : (pure a : Option α) = some a := rfl

theorem applyAttributeEntry_str (st : Style) (nm : String) (v : Value) :
    applyAttributeEntry st (Value.str (some nm), v) =
      applyStyleAttribute st nm v := rfl

theorem applyStyleAttribute_unknown (st : Style) (uname : String)
    (uval : Value) (hu : uname ∉ recognized_style_keys) :
    applyStyleAttribute st uname uval = some st := by
  simp only [recognized_style_keys, List.mem_cons, List.mem_singleton,
    not_or] at hu
  obtain ⟨h1, h2, h3, h4, h5, h6, h7, h8, h9, h10, -⟩ := hu
  unfold applyStyleAttribute
  rw [if_neg h1, if_neg h2, if_neg h3, if_neg h4, if_neg h5, if_neg h6,
    if_neg h7, if_neg h8, if_neg h9, if_neg h10]

theorem applyStyleAttribute_fg (st : Style) (c : Int) (u : Nat)
    (h : as_u64 c = some u) :
    applyStyleAttribute st "foreground" (Value.integer c) =
      some { st with colors :=
        { st.colors with foreground := some (unpack_color u) } } := by
  simp [applyStyleAttribute, h]

theorem applyStyleAttribute_bg (st : Style) (c : Int) (u : Nat)
    (h : as_u64 c = some u) :
    applyStyleAttribute st "background" (Value.integer c) =
      some { st with colors :=
        { st.colors with background := some (unpack_color u) } } := by
  simp [applyStyleAttribute, h]

theorem applyStyleAttribute_sp (st : Style) (c : Int) (u : Nat)
    (h : as_u64 c = some u) :
    applyStyleAttribute st "special" (Value.integer c) =
      some { st with colors :=
        { st.colors with special := some (unpack_color u) } } := by
  simp [applyStyleAttribute, h]

theorem applyStyleAttribute_blend (st : Style) (c : Int) (u : Nat)
    (h : as_u64 c = some u) :
    applyStyleAttribute st "blend" (Value.integer c) =
      some { st with blend := u % 256 } := by
  simp [applyStyleAttribute, h]

theorem foldl_two_entries (e1 e2 : Value × Value) (s0 s1 s2 : Style)
    (h1 : applyAttributeEntry s0 e1 = some s1)
    (h2 : applyAttributeEntry s1 e2 = some s2) :
    List.foldlM applyAttributeEntry s0 [e1, e2] = some s2 := by
  simp only [List.foldlM_cons, List.foldlM_nil, h1, h2, optionBindSome,
    optionPureEq]

theorem hl_attr_define_two_entries (idv : Value) (i : Nat)
    (e1 e2 : Value × Value) (st : Style)
    (hid : parse_u64 idv = Except.ok i)
    (hfold : List.foldlM applyAttributeEntry default_style [e1, e2] =
      some st) :
    parse_hl_attr_define
        [idv, Value.map [e1, e2], Value.array [], Value.array []] =
      some (Except.ok (RedrawEvent.HighlightAttributesDefine i st)) := by
  have hfold2 : List.foldlM applyAttributeEntry
      (Style.new (Colors.new none none none)) [e1, e2] = some st := hfold
  rw [parse_hl_attr_define]
  simp only [hfold2, hid, exceptBindOk, exceptPureEq]

theorem checks_hl_of (id_ : Nat) (flip : Bool) (uname : String) (uval : Value)
    (key : String) (v : Value) (st : Style)
    (hid : id_ < 2 ^ 64)
    (hu : uname ∉ recognized_style_keys)
    (happ : applyStyleAttribute default_style key v = some st) :
    checks_hl id_ flip (Value.str (some uname), uval) key v st := by
  have hunk : ∀ s : Style,
      applyAttributeEntry s (Value.str (some uname), uval) = some s :=
    fun s => (applyAttributeEntry_str s uname uval).trans
      (applyStyleAttribute_unknown s uname uval hu)
  have hkey : applyAttributeEntry default_style (Value.str (some key), v) =
      some st :=
    (applyAttributeEntry_str default_style key v).trans happ
  unfold checks_hl hl_args pair_orders
  cases flip
  · exact hl_attr_define_two_entries (Value.integer id_) id_ _ _ st
      (parse_u64_natCast id_ hid)
      (foldl_two_entries _ _ default_style st st hkey (hunk st))
  · exact hl_attr_define_two_entries (Value.integer id_) id_ _ _ st
      (parse_u64_natCast id_ hid)
      (foldl_two_entries _ _ default_style default_style st
        (hunk default_style) hkey)

/-- C9: an `hl_attr_define` attribute map holding exactly one recognized key
(with a well-typed value) and one unrecognized key — in either order —
decodes to a `Style` that differs from the baseline style only in the field
of the recognized key; the unrecognized key causes no failure and changes no
field.  One conjunct per recognized key. -/
theorem c9_one_recognized_one_unknown (id_ c : Nat) (b : Bool)
    (uname : String) (uval : Value) (flip : Bool)
    (hid : id_ < 2 ^ 64) (hc : c < 2 ^ 64)
    (hu : uname ∉ recognized_style_keys) :
    checks_hl id_ flip (Value.str (some uname), uval) "foreground"
      (Value.integer (c : Int))
      { default_style with colors :=
        { default_style.colors with foreground := some (unpack_color c) } } ∧
    checks_hl id_ flip (Value.str (some uname), uval) "background"
      (Value.integer (c : Int))
      { default_style with colors :=
        { default_style.colors with background := some (unpack_color c) } } ∧
    checks_hl id_ flip (Value.str (some uname), uval) "special"
      (Value.integer (c : Int))
      { default_style with colors :=
        { default_style.colors with special := some (unpack_color c) } } ∧
    checks_hl id_ flip (Value.str (some uname), uval) "reverse"
      (Value.boolean b) { default_style with reverse := b } ∧
    checks_hl id_ flip (Value.str (some uname), uval) "italic"
      (Value.boolean b) { default_style with italic := b } ∧
    checks_hl id_ flip (Value.str (some uname), uval) "bold"
      (Value.boolean b) { default_style with bold := b } ∧
    checks_hl id_ flip (Value.str (some uname), uval) "strikethrough"
      (Value.boolean b) { default_style with strikethrough := b } ∧
    checks_hl id_ flip (Value.str (some uname), uval) "underline"
      (Value.boolean b) { default_style with underline := b } ∧
    checks_hl id_ flip (Value.str (some uname), uval) "undercurl"
      (Value.boolean b) { default_style with undercurl := b } ∧
    checks_hl id_ flip (Value.str (some uname), uval) "blend"
      (Value.integer (c : Int)) { default_style with blend := c % 256 } := by
  refine ⟨?_, ?_, ?_, ?_, ?_, ?_, ?_, ?_, ?_, ?_⟩ <;>
    apply checks_hl_of id_ flip uname uval _ _ _ hid hu
  · exact applyStyleAttribute_fg default_style (c : Int) c
      (as_u64_natCast c hc)
  · exact applyStyleAttribute_bg default_style (c : Int) c
      (as_u64_natCast c hc)
  · exact applyStyleAttribute_sp default_style (c : Int) c
      (as_u64_natCast c hc)
  · rfl
  · rfl
  · rfl
  · rfl
  · rfl
  · rfl
  · exact applyStyleAttribute_blend default_style (c : Int) c
      (as_u64_natCast c hc)

/-- Evaluates `c9_one_recognized_one_unknown` at a concrete occurrence: map
`{"nonsense_key": nil, "foreground": 0xFF0000}` (unrecognized key first),
id 7. -/
theorem c9_one_recognized_one_unknown_witness :
    parse_hl_attr_define
        [Value.integer 7,
         Value.map [(Value.str (some "nonsense_key"), Value.nil),
           (Value.str (some "foreground"), Value.integer 16711680)],
         Value.array [], Value.array []] =
      some (Except.ok (RedrawEvent.HighlightAttributesDefine 7
        { default_style with colors :=
          { default_style.colors with
            foreground := some (unpack_color 16711680) } })) :=
  (c9_one_recognized_one_unknown 7 16711680 false "nonsense_key" Value.nil
      true (by norm_num) (by norm_num) (by decide)).1
